import Mathlib

/-!
Shallow embedding of the `spyre-rag` ingestion pipeline
(`src/digitize/doc_utils.py`, `src/common/llm_utils.py`) and proofs about it.

Remote collaborators (the sentence-splitter library, the tokenizer service,
the LLM inference service, the fuzzy font-size lookup, the filesystem and
checksum hashing) are modelled as explicit function parameters; everything
the Python code itself computes is translated directly.

Python strings are embedded as Lean `String`; the Python string methods used
by the code (`strip`, `lstrip('#')`, `startswith('#')`, `lower`, `in`,
`" ".join`) are given executable structural definitions over `String.data`.
-/

/-- Python `str.strip()`: drop whitespace from both ends. -/
def pyStrip (s : String) : String :=
  ⟨((s.data.dropWhile Char.isWhitespace).reverse.dropWhile Char.isWhitespace).reverse⟩

/-- Python `str.lstrip('#')`. -/
def pyLstripHash (s : String) : String :=
  ⟨s.data.dropWhile (fun c => c = '#')⟩

/-- Python `str.startswith('#')`. -/
def pyStartsWithHash (s : String) : Bool :=
  match s.data with
  | '#' :: _ => true
  | _ => false

/-- Python `str.lower()` (ASCII, which is all the code compares). -/
def pyLower (s : String) : String := ⟨s.data.map Char.toLower⟩

/-- Test that `needle` is a leading subsequence of `hay`. -/
def seqStarts : List Char → List Char → Bool
  | [], _ => true
  | _ :: _, [] => false
  | a :: as, b :: bs => a = b && seqStarts as bs

/-- Python `needle in hay` for strings, on the underlying character lists. -/
def seqContains (needle : List Char) : List Char → Bool
  | [] => needle.isEmpty
  | c :: t => seqStarts needle (c :: t) || seqContains needle t

/-- Python `" ".join(parts)`. -/
def joinSp : List String → String
  | [] => ""
  | [s] => s
  | s :: rest => s ++ " " ++ joinSp rest

/-- Python `list.index` as an `Option` (`none` plays the rôle of `ValueError`). -/
def listIdxOf {α : Type} [DecidableEq α] (a : α) : List α → Option Nat
  | [] => none
  | b :: t => if a = b then some 0 else (listIdxOf a t).map (· + 1)

/-- Insertion into a list sorted by the boolean relation `le`. -/
def insertLe {α : Type} (le : α → α → Bool) (a : α) : List α → List α
  | [] => [a]
  | b :: t => if le a b then a :: b :: t else b :: insertLe le a t

/-- Executable sort by the boolean relation `le`; on duplicate-free input this
agrees with Python `sorted` under the corresponding key order. -/
def sortLe {α : Type} (le : α → α → Bool) (l : List α) : List α :=
  l.foldr (insertLe le) []

/-! ## `split_text_into_token_chunks` (doc_utils.py lines 425-455)

The tokenizer service appears as `tc : String → Nat` (the token count
`count_tokens` obtains from `tokenize_with_llm`), and the external
`SentenceSplitter(language='en').split` as `sentSplit : String → List String`.
The accumulating chunk is kept as its list of sentences and joined with
`joinSp` exactly where the Python code runs `" ".join(current_chunk)`. -/

/-- State of the sentence-packing loop: finished chunks (as sentence lists),
the accumulating `current_chunk`, and `current_token_count`. -/
structure SplitState where
  chunks : List (List String)
  current : List String
  current_token_count : Nat
deriving DecidableEq

/-- The overflow branch of the loop body (lines 434-445): save the current
chunk, then seed the next one with the last sentence when overlap is
configured and the closed chunk is non-empty, else start empty. -/
def splitOverflowReset (tc : String → Nat) (overlap : Nat) (st : SplitState) : SplitState :=
  let chunks := st.chunks ++ [st.current]
  if 0 < overlap ∧ st.current ≠ [] then
    let overlap_text := st.current.getLast?.getD ""
    { chunks := chunks, current := [overlap_text], current_token_count := tc overlap_text }
  else
    { chunks := chunks, current := [], current_token_count := 0 }

/-- One iteration of the `for sentence in sentences` loop (lines 431-448). -/
def splitStep (tc : String → Nat) (max_tokens overlap : Nat)
    (st : SplitState) (sentence : String) : SplitState :=
  let token_len := tc sentence
  let st' := if max_tokens < st.current_token_count + token_len
    then splitOverflowReset tc overlap st else st
  { st' with current := st'.current ++ [sentence],
             current_token_count := st'.current_token_count + token_len }

/-- The whole loop plus the final flush (lines 427-455), on an already split
sentence list; chunks are kept as sentence lists. -/
def splitSentenceChunks (tc : String → Nat) (sentences : List String)
    (max_tokens overlap : Nat) : List (List String) :=
  let final := sentences.foldl (splitStep tc max_tokens overlap) ⟨[], [], 0⟩
  if final.current ≠ [] then final.chunks ++ [final.current] else final.chunks

/-- Embeds `split_text_into_token_chunks(text, emb_endpoint, max_tokens, overlap)`:
sentence-split the text, pack sentences into token-bounded chunks, and return
the `" ".join`ed chunk strings. -/
def split_text_into_token_chunks (sentSplit : String → List String) (tc : String → Nat)
    (text : String) (max_tokens overlap : Nat) : List String :=
  (splitSentenceChunks tc (sentSplit text) max_tokens overlap).map joinSp

/-- Total token count of a chunk, sentence-wise (the quantity the loop's
`current_token_count` tracks for the accumulating chunk). -/
def sumTokens (tc : String → Nat) (l : List String) : Nat :=
  (l.map tc).sum

example : splitSentenceChunks String.length ["aa", "aa", "aa"] 3 50 =
    [["aa"], ["aa", "aa"], ["aa", "aa"]] := by decide

example : split_text_into_token_chunks (fun _ => ["aa", "aa", "aa"]) String.length
    "aa aa aa" 3 50 = ["aa", "aa aa", "aa aa"] := by decide

example : splitSentenceChunks String.length ["aaaa", "b"] 3 50 =
    [[], ["aaaa"], ["aaaa", "b"]] := by decide

/-! ## `flush_chunk` (doc_utils.py lines 458-487)

The mutated dict `current_chunk` and the emitted chunk dicts become records;
a chunk dict that never received a `"part_id"` key is `part_id = none`.
Title fields are `Option String` (`none` embeds Python `None`). -/

/-- The accumulating buffer dict `current_chunk` of `chunk_single_file`. -/
structure CurrentChunk where
  chapter_title : Option String
  section_title : Option String
  subsection_title : Option String
  subsubsection_title : Option String
  content : String
  page_range : List Nat
  source_nodes : List String
deriving DecidableEq

/-- An emitted chunk dict. -/
structure Chunk where
  chapter_title : Option String
  section_title : Option String
  subsection_title : Option String
  subsubsection_title : Option String
  content : String
  page_range : List Nat
  source_nodes : List String
  part_id : Option Nat
deriving DecidableEq

/-- Python `sorted(set(l))` for page numbers. -/
def sortedDedup (l : List Nat) : List Nat :=
  sortLe (fun a b => decide (a ≤ b)) l.eraseDups

/-- Embeds `flush_chunk(current_chunk, chunks, emb_endpoint, max_tokens)`: mutation of
`chunks` and `current_chunk` is embedded as returning the new pair.
The call to `split_text_into_token_chunks` uses the default `overlap=50`. -/
def flush_chunk (sentSplit : String → List String) (tc : String → Nat)
    (current_chunk : CurrentChunk) (chunks : List Chunk) (max_tokens : Nat) :
    List Chunk × CurrentChunk :=
  let content := pyStrip current_chunk.content
  if content = "" then (chunks, current_chunk)
  else
    let token_chunks := split_text_into_token_chunks sentSplit tc content max_tokens 50
    let new_chunks := chunks ++ token_chunks.enum.map (fun p =>
      ({ chapter_title := current_chunk.chapter_title,
         section_title := current_chunk.section_title,
         subsection_title := current_chunk.subsection_title,
         subsubsection_title := current_chunk.subsubsection_title,
         content := p.2,
         page_range := sortedDedup current_chunk.page_range,
         source_nodes := current_chunk.source_nodes,
         part_id := if 1 < token_chunks.length then some (p.1 + 1) else none } : Chunk))
    (new_chunks,
     { chapter_title := some "", section_title := some "", subsection_title := some "",
       subsubsection_title := some "", content := "", page_range := [], source_nodes := [] })

/-! ## Header levels and the chunker state machine
(`collect_header_font_sizes`, `get_header_level`, `chunk_single_file`,
doc_utils.py lines 388-418 and 490-590)

Font sizes are embedded as exact rationals. -/

/-- A block of the extracted-text JSON consumed by `chunk_single_file`.
`prov` embeds the optional `"prov"` key (a list of dicts with an optional
`"page_no"`); the extractor of this repository never writes it. -/
structure Block where
  label : String
  text : String
  font_size : Option ℚ
  prov : Option (List (Option Nat))
deriving DecidableEq

/-- Embeds `collect_header_font_sizes(elements)`: the distinct `section_header` font
sizes, sorted descending (Python `sorted(sizes, reverse=True)` of a set). -/
def collect_header_font_sizes (elements : List Block) : List ℚ :=
  sortLe (fun a b => decide (b ≤ a))
    ((elements.filterMap fun el =>
      if el.label = "section_header" then el.font_size else none).eraseDups)

/-- Embeds `get_header_level(text, font_size, sorted_font_sizes)` (lines 400-418):
markdown `#` markers take priority; otherwise the 1-based rank of the font
size in the descending list; an unknown (or `None`) font size falls back to
the lowest priority `len(sorted_font_sizes)` via the `ValueError` handler. -/
def get_header_level (text : String) (font_size : Option ℚ)
    (sorted_font_sizes : List ℚ) : Nat × String :=
  let t := pyStrip text
  if pyStartsWithHash t then
    let stripped := pyLstripHash t
    (t.length - stripped.length, pyStrip stripped)
  else
    match font_size with
    | some fs =>
      match listIdxOf fs sorted_font_sizes with
      | some i => (i + 1, t)
      | none => (sorted_font_sizes.length, t)
    | none => (sorted_font_sizes.length, t)

/-- State threaded through the `for idx, block in enumerate(data)` loop of
`chunk_single_file`: emitted chunks, the buffer, and the four header-title
variables. -/
structure ChunkerState where
  chunks : List Chunk
  current : CurrentChunk
  current_chapter : Option String
  current_section : Option String
  current_subsection : Option String
  current_subsubsection : Option String
deriving DecidableEq

/-- The `page_no` recovery (lines 525-528): `block.get("prov", {})[0].get("page_no")`
guarded by a bare `except` that yields `0`. A missing `"prov"` key or an empty
list raises and gives `0`; a present first entry yields its optional page. -/
def block_page_no (b : Block) : Option Nat :=
  match b.prov with
  | none => some 0
  | some [] => some 0
  | some (p :: _) => p

/-- One iteration of the chunking loop (doc_utils.py lines 522-575). -/
def chunk_step (sentSplit : String → List String) (tc : String → Nat)
    (max_tokens : Nat) (font_size_levels : List ℚ)
    (st : ChunkerState) (ib : Nat × Block) : ChunkerState :=
  let idx := ib.1
  let block := ib.2
  let text := pyStrip block.text
  let page_no := block_page_no block
  let ref := "#texts/" ++ toString idx
  if block.label = "section_header" then
    let lt := get_header_level text block.font_size font_size_levels
    let level := lt.1
    let full_title := lt.2
    let upd : Option String × Option String × Option String × Option String :=
      if level = 1 then (some full_title, none, none, none)
      else if level = 2 then (st.current_chapter, some full_title, none, none)
      else if level = 3 then (st.current_chapter, st.current_section, some full_title, none)
      else (st.current_chapter, st.current_section, st.current_subsection, some full_title)
    let fc := flush_chunk sentSplit tc st.current st.chunks max_tokens
    { chunks := fc.1,
      current := { fc.2 with
        chapter_title := upd.1, section_title := upd.2.1,
        subsection_title := upd.2.2.1, subsubsection_title := upd.2.2.2 },
      current_chapter := upd.1, current_section := upd.2.1,
      current_subsection := upd.2.2.1, current_subsubsection := upd.2.2.2 }
  else if block.label = "text" ∨ block.label = "list_item" ∨
      block.label = "code" ∨ block.label = "formula" then
    let cur := st.current
    let cur := { cur with
      chapter_title := if cur.chapter_title = none then st.current_chapter else cur.chapter_title,
      section_title := if cur.section_title = none then st.current_section else cur.section_title,
      subsection_title :=
        if cur.subsection_title = none then st.current_subsection else cur.subsection_title,
      subsubsection_title :=
        if cur.subsubsection_title = none then st.current_subsubsection
        else cur.subsubsection_title }
    let piece :=
      if block.label = "code" then "```\n" ++ text ++ "\n``` "
      else if block.label = "formula" then "$" ++ text ++ "$ "
      else text ++ " "
    let cur := { cur with
      content := cur.content ++ piece,
      page_range := match page_no with
        | some p => cur.page_range ++ [p]
        | none => cur.page_range,
      source_nodes := cur.source_nodes ++ [ref] }
    { st with current := cur }
  else st

/-- The chunk-construction core of `chunk_single_file` (lines 504-578): build
the font-size ranking, run the loop over the enumerated blocks, flush the
remaining buffer, and return the emitted chunks. -/
def chunk_single_file (sentSplit : String → List String) (tc : String → Nat)
    (data : List Block) (max_tokens : Nat) : List Chunk :=
  let font_size_levels := collect_header_font_sizes data
  let init : ChunkerState :=
    ⟨[], ⟨none, none, none, none, "", [], []⟩, none, none, none, none⟩
  let final := data.enum.foldl (chunk_step sentSplit tc max_tokens font_size_levels) init
  (flush_chunk sentSplit tc final.current final.chunks max_tokens).1

example :
    (chunk_single_file (fun s => [s]) String.length
      [⟨"section_header", "# Intro", none, none⟩,
       ⟨"text", "alpha", none, none⟩,
       ⟨"section_header", "### Deep", none, none⟩,
       ⟨"text", "beta", none, none⟩] 512).map
      (fun c => (c.chapter_title, c.section_title, c.subsection_title, c.content)) =
    [(some "Intro", none, none, "alpha"),
     (some "Intro", none, some "Deep", "beta")] := by decide

/-! ## `process_text` (doc_utils.py lines 44-129)

The converted document's text items are `TextObj`; the ToC matcher
`get_matching_header_lvl(toc_headers, ·)` (which returns a `"#"*level` marker
or `""`) and the fuzzy lookup `find_text_font_size(pdf_pages, text, page-1)`
are collaborator functions.  `tocMatch = none` embeds a falsy `toc_headers`
(the no-ToC, font-size path). -/

/-- A docling text item: label, text, and its provenance page numbers. -/
structure TextObj where
  label : String
  text : String
  prov : List Nat
deriving DecidableEq

/-- One element of a `find_text_font_size` result list. -/
structure FontMatch where
  font_size : ℚ
  match_score : Nat
deriving DecidableEq

/-- An element of the structured output written by `process_text`. -/
structure Entry where
  label : String
  text : String
  page : Nat
  font_size : Option ℚ
deriving DecidableEq

def excluded_labels : List String :=
  ["page_header", "page_footer", "caption", "reference", "footnote"]

/-- Python `'#' * n`. -/
def hashMarks (n : Nat) : String := ⟨List.replicate n '#'⟩

/-- Python `round(q, 2)` (the float-level half-even tie behaviour of CPython is
approximated by exact rational rounding; no claim depends on tie cases). -/
def round2 (q : ℚ) : ℚ := (round (q * 100) : ℤ) / 100

/-- One iteration of the `for text_obj in converted_doc.texts` loop
(lines 70-124), threading `(structured_output, last_header_level)`.  The
non-header branch indexes `text_obj.prov[0]`, which raises `IndexError` on an
empty provenance list — no handler exists inside `process_text`, so the
exception aborts the whole extraction; that outcome is embedded as `none`. -/
def process_text_step (tocMatch : Option (String → String))
    (findMatches : String → Nat → List FontMatch)
    (st : List Entry × Nat) (t : TextObj) : Option (List Entry × Nat) :=
  if t.label ∈ excluded_labels then some st
  else if t.label = "section_header" then
    some (t.prov.foldl (fun st page_no =>
      match tocMatch with
      | some f =>
        let hdrMark := f t.text
        if hdrMark ≠ "" then
          (st.1 ++ [⟨t.label, hdrMark ++ " " ++ t.text, page_no, none⟩],
           (pyStrip hdrMark).length)
        else
          (st.1 ++ [⟨t.label, hashMarks (st.2 + 1) ++ " " ++ t.text, page_no, none⟩], st.2)
      | none =>
        let found := findMatches t.text (page_no - 1)
        if found ≠ [] then
          let perfect := found.filter (fun m => m.match_score = 100)
          let font_size : Option ℚ :=
            if perfect.length ≠ 0 then
              some ((perfect.map (fun m => m.font_size)).sum / (perfect.length : ℚ))
            else none
          let stored : Option ℚ :=
            match font_size with
            | some v => if v ≠ 0 then some (round2 v) else none
            | none => none
          (st.1 ++ [⟨t.label, t.text, page_no, stored⟩], st.2)
        else st) st)
  else
    match t.prov with
    | [] => none
    | p :: _ => some (st.1 ++ [⟨t.label, t.text, p, none⟩], st.2)

/-- The structured output `process_text` writes for `converted_doc.texts`
(`last_header_level` starts at `0`); `none` when the loop raised. -/
def process_text_entries (tocMatch : Option (String → String))
    (findMatches : String → Nat → List FontMatch)
    (texts : List TextObj) : Option (List Entry) :=
  (texts.foldlM (process_text_step tocMatch findMatches) ([], 0)).map (fun st => st.1)

/-! ## LLM classification and summarization (llm_utils.py lines 40-118)

The vLLM completions endpoint is a collaborator; for classification the batch
response is an environment `Nat → BatchOutcome` (indexed by batch number),
for summarization a per-table environment `Nat → WorkerOutcome` covering both
the HTTP/parse outcome inside `summarize_single_table` and a crash of the
worker future observed in `summarize_table`. -/

/-- Parsed-JSON shape relevant to `summarize_single_table`: an optional
`"choices"` list whose entries have an optional `"text"`. `error` covers
`RequestException` and any other raised exception. -/
inductive LLMResponse where
  | error
  | ok (choices : Option (List (Option String)))
deriving DecidableEq

/-- Embeds `summarize_single_table` (lines 73-96): extract
`result.get("choices", [{}])[0].get("text", "").strip()`; every handled
exception — including the `IndexError` on an empty choices list — returns the
placeholder `"No summary."`. -/
def summarize_single_table (resp : LLMResponse) : String :=
  match resp with
  | .error => "No summary."
  | .ok choices =>
    match choices.getD [none] with
    | [] => "No summary."
    | c :: _ => pyStrip (c.getD "")

/-- Outcome of one summarization worker: the future itself raised, or it
completed with an HTTP-level response. -/
inductive WorkerOutcome where
  | crashed
  | completed (resp : LLMResponse)
deriving DecidableEq

/-- The summary recorded at one index of `summaries` (lines 110-116). -/
def workerSummary (o : WorkerOutcome) : String :=
  match o with
  | .crashed => "No summary."
  | .completed r => summarize_single_table r

/-- Embeds `summarize_table(table_html, ...)` (lines 99-118): one prompt per table
html, one worker per prompt, `summaries[idx]` filled from that worker alone. -/
def summarize_table (env : Nat → WorkerOutcome) (table_html : List String) : List String :=
  (List.range table_html.length).map (fun i => workerSummary (env i))

/-- Python `"yes" in choice.get("text", "").strip().lower()`. -/
def decideYes (choiceText : Option String) : Bool :=
  seqContains "yes".data (pyLower (pyStrip (choiceText.getD ""))).data

/-- Outcome of one batched classification POST: a `RequestException`/parse
error, or a parsed result whose `"choices"` entries carry optional texts. -/
inductive BatchOutcome where
  | requestError
  | ok (choices : List (Option String))
deriving DecidableEq

/-- Embeds `classify_text_with_llm(text_blocks, ..., batch_size=32)` (lines 40-70):
the prompts are batched (`range(0, len, batch_size)`); per batch, on success
one boolean is appended per returned choice, while the exception handlers
append a single `True` for the whole batch. -/
def classify_text_with_llm (env : Nat → BatchOutcome) (text_blocks : List String)
    (batch_size : Nat) : List Bool :=
  ((List.range ((text_blocks.length + batch_size - 1) / batch_size)).map (fun bi =>
    match env bi with
    | .ok choices => choices.map decideYes
    | .requestError => [true])).flatten

/-- Modelled from the spec: `summarize_and_classify_tables` is imported by
`process_table` from `common.llm_utils` but is absent from the sources (only
its caller is present).  Spec §4.5 describes it as (a) batch-classifying each
table's HTML with the LLM and (b) summarizing each table's HTML individually,
returning the summaries and the keep decisions; decisions come from
`classify_text_with_llm` (default `batch_size=32`) and summaries from
`summarize_table`. -/
def summarize_and_classify_tables (classifyEnv : Nat → BatchOutcome)
    (summEnv : Nat → WorkerOutcome) (table_htmls : List String) :
    List String × List Bool :=
  (summarize_table summEnv table_htmls, classify_text_with_llm classifyEnv table_htmls 32)

/-- The filtering comprehension of `process_table` (doc_utils.py lines
152-159): `enumerate(zip(decisions, htmls, captions, summaries))` kept when
`keep`; Python `zip` truncates to the shortest input, as `List.zip` does.
An output element is `(idx, html, caption, summary)`. -/
def process_table_filter (decisions : List Bool) (htmls captions summaries : List String) :
    List (Nat × String × String × String) :=
  (((decisions.zip htmls).zip (captions.zip summaries)).enum).filterMap
    (fun p => if p.2.1.1 then some (p.1, p.2.1.2, p.2.2.1, p.2.2.2) else none)

/-- The kept-table computation of `process_table` (lines 148-160): summaries
and decisions from `summarize_and_classify_tables`, then the zip filter. -/
def process_table_kept (classifyEnv : Nat → BatchOutcome) (summEnv : Nat → WorkerOutcome)
    (table_htmls table_captions : List String) : List (Nat × String × String × String) :=
  let sd := summarize_and_classify_tables classifyEnv summEnv table_htmls
  process_table_filter sd.2 table_htmls table_captions sd.1

/-! ## Change tracking and workload partitioning
(doc_utils.py lines 224-267) -/

/-- Filesystem/checksum facts about one input file as `process_documents`
observes them: whether `stem.checksum` exists, its raw text, the fresh
`generate_file_checksum` value, and presence of the four per-stage artifacts
(`stem.json`, `stem{text_suffix}`, `stem{table_suffix}`, `stem{chunk_suffix}`). -/
structure ConversionEnv where
  checksum_exists : Bool
  cached_checksum : String
  new_checksum : String
  converted_json_exists : Bool
  text_json_exists : Bool
  table_json_exists : Bool
  chunk_json_exists : Bool
deriving DecidableEq

/-- The per-file flag dict built by `process_documents`. -/
structure ConversionFlags where
  convert : Bool
  text_processed : Bool
  table_processed : Bool
  chunked : Bool
deriving DecidableEq

/-- The flag computation for one input path (lines 232-252): the three
processed flags start `False`; `convert` is `True` without a stored checksum
or on mismatch (of the `.strip()`ped stored text), otherwise it is the absence
of `stem.json` and the three flags reflect artifact presence. -/
def compute_conversion_flags (e : ConversionEnv) : ConversionFlags :=
  if !e.checksum_exists then
    { convert := true, text_processed := false, table_processed := false, chunked := false }
  else if pyStrip e.cached_checksum ≠ e.new_checksum then
    { convert := true, text_processed := false, table_processed := false, chunked := false }
  else
    { convert := !e.converted_json_exists,
      text_processed := e.text_json_exists,
      table_processed := e.table_json_exists,
      chunked := e.chunk_json_exists }

def HEAVY_PDF_PAGE_THRESHOLD : Nat := 500

/-- The light/heavy partition (lines 259-267): `pageCount` embeds
`get_pdf_page_count`; the result is `(light_files, heavy_files)` with
dict keys kept in insertion order as lists. -/
def partition_by_page_count (pageCount : String → Nat) (files : List String) :
    List String × List String :=
  files.foldl (fun acc path =>
    if HEAVY_PDF_PAGE_THRESHOLD ≤ pageCount path
    then (acc.1, acc.2 ++ [path])
    else (acc.1 ++ [path], acc.2)) ([], [])

/-! ## Predicates used by the token-budget theorems -/

/-- The shape every chunk produced by the sentence-packing loop actually has:
within the token budget, or a single over-budget sentence, or — with overlap
configured — an overlap seed together with the one sentence whose addition
overflowed, jointly over budget. -/
def chunkWithinBudget (tc : String → Nat) (max_tokens overlap : Nat)
    (chunk : List String) : Prop :=
  sumTokens tc chunk ≤ max_tokens ∨
  (∃ s, chunk = [s] ∧ max_tokens < tc s) ∨
  (0 < overlap ∧ ∃ s t, chunk = [s, t] ∧ max_tokens < tc s + tc t)

/-- Loop invariant of `split_text_into_token_chunks`: all saved chunks and the
accumulating chunk have the budget shape, and `current_token_count` is the
sentence-wise token sum of the accumulating chunk. -/
def SplitInv (tc : String → Nat) (max_tokens overlap : Nat) (st : SplitState) : Prop :=
  (∀ c ∈ st.chunks, chunkWithinBudget tc max_tokens overlap c) ∧
  chunkWithinBudget tc max_tokens overlap st.current ∧
  st.current_token_count = sumTokens tc st.current

/-! # Theorems -/

/-! ## Helper lemmas -/

theorem sumTokens_append (tc : String → Nat) (l₁ l₂ : List String) :
    sumTokens tc (l₁ ++ l₂) = sumTokens tc l₁ + sumTokens tc l₂ := by
  simp [sumTokens]

theorem partition_foldl (pageCount : String → Nat) (files : List String) :
    ∀ acc : List String × List String,
      files.foldl (fun acc path =>
        if HEAVY_PDF_PAGE_THRESHOLD ≤ pageCount path
        then (acc.1, acc.2 ++ [path])
        else (acc.1 ++ [path], acc.2)) acc =
      (acc.1 ++ files.filter (fun p => decide (pageCount p < HEAVY_PDF_PAGE_THRESHOLD)),
       acc.2 ++ files.filter (fun p => decide (HEAVY_PDF_PAGE_THRESHOLD ≤ pageCount p))) := by
  induction files with
  | nil => intro acc; simp
  | cons f fs ih =>
    intro acc
    by_cases h : HEAVY_PDF_PAGE_THRESHOLD ≤ pageCount f
    · have h' : ¬ pageCount f < HEAVY_PDF_PAGE_THRESHOLD := by omega
      simp only [List.foldl_cons, if_pos h, ih, List.filter_cons]
      simp [h, h']
    · have h' : pageCount f < HEAVY_PDF_PAGE_THRESHOLD := by omega
      simp only [List.foldl_cons, if_neg h, ih, List.filter_cons]
      simp [h, h']

/-- C7: the workload partitioner places every input file into exactly one of
the two maps — the heavy one iff its page count is at least the threshold 500,
the light one otherwise — and the two maps are disjoint and cover the input. -/
theorem C7_partition_light_heavy (pageCount : String → Nat) (files : List String) (p : String) :
    ((p ∈ (partition_by_page_count pageCount files).1 ∨
      p ∈ (partition_by_page_count pageCount files).2) ↔ p ∈ files) ∧
    (p ∈ files →
      (p ∈ (partition_by_page_count pageCount files).2 ↔ HEAVY_PDF_PAGE_THRESHOLD ≤ pageCount p)) ∧
    (p ∈ files →
      (p ∈ (partition_by_page_count pageCount files).1 ↔ pageCount p < HEAVY_PDF_PAGE_THRESHOLD)) ∧
    ¬(p ∈ (partition_by_page_count pageCount files).1 ∧
      p ∈ (partition_by_page_count pageCount files).2) := by
  have hpart := partition_foldl pageCount files ([], [])
  unfold partition_by_page_count
  rw [hpart]
  simp only [List.nil_append, List.mem_filter, decide_eq_true_eq]
  refine ⟨?_, ?_, ?_, ?_⟩
  · constructor
    · rintro (⟨hm, _⟩ | ⟨hm, _⟩) <;> exact hm
    · intro hm
      by_cases h : HEAVY_PDF_PAGE_THRESHOLD ≤ pageCount p
      · exact Or.inr ⟨hm, h⟩
      · exact Or.inl ⟨hm, by omega⟩
  · intro hm
    constructor
    · rintro ⟨_, h⟩; exact h
    · intro h; exact ⟨hm, h⟩
  · intro hm
    constructor
    · rintro ⟨_, h⟩; exact h
    · intro h; exact ⟨hm, h⟩
  · rintro ⟨⟨_, h1⟩, ⟨_, h2⟩⟩; omega

/-- Witness for C7 at a concrete input: a 600-page file lands in the heavy
map and not the light one, a 3-page file in the light map. -/
theorem C7_partition_light_heavy_witness :
    "big.pdf" ∈ (partition_by_page_count
      (fun p => if p = "big.pdf" then 600 else 3) ["big.pdf", "small.pdf"]).2 ∧
    "small.pdf" ∈ (partition_by_page_count
      (fun p => if p = "big.pdf" then 600 else 3) ["big.pdf", "small.pdf"]).1 := by
  constructor
  · exact ((C7_partition_light_heavy
      (fun p => if p = "big.pdf" then 600 else 3) ["big.pdf", "small.pdf"]
      "big.pdf").2.1 (by decide)).mpr (by decide)
  · exact ((C7_partition_light_heavy
      (fun p => if p = "big.pdf" then 600 else 3) ["big.pdf", "small.pdf"]
      "small.pdf").2.2.1 (by decide)).mpr (by decide)

/-- C3 counterexample: with a stored checksum that matches the fresh one but
`stem.json` missing while the processed-text artifact exists, the code sets
`convert = true` and simultaneously `text_processed = true`, contradicting the
claim that `convert = true` forces all three processed flags to `false`. -/
theorem C3_flags_counterexample :
    (compute_conversion_flags ⟨true, "abc", "abc", false, true, false, false⟩).convert = true ∧
    (compute_conversion_flags ⟨true, "abc", "abc", false, true, false, false⟩).text_processed
      = true := by
  decide

/-- C3 (amended): `convert` is true exactly when there is no stored checksum,
the stored (stripped) checksum differs from the fresh one, or `stem.json` is
missing.  When `convert` is false the three processed flags equal artifact
presence.  When `convert` is true because of a missing or mismatched checksum
the three flags are false; but when `convert` is true only because `stem.json`
is missing (checksum present and matching), the three flags still reflect
artifact presence. -/
theorem C3_flags_amended (e : ConversionEnv) :
    ((compute_conversion_flags e).convert = true ↔
      (e.checksum_exists = false ∨ pyStrip e.cached_checksum ≠ e.new_checksum ∨
       e.converted_json_exists = false)) ∧
    ((compute_conversion_flags e).convert = false →
      (compute_conversion_flags e).text_processed = e.text_json_exists ∧
      (compute_conversion_flags e).table_processed = e.table_json_exists ∧
      (compute_conversion_flags e).chunked = e.chunk_json_exists) ∧
    ((e.checksum_exists = false ∨ pyStrip e.cached_checksum ≠ e.new_checksum) →
      (compute_conversion_flags e).text_processed = false ∧
      (compute_conversion_flags e).table_processed = false ∧
      (compute_conversion_flags e).chunked = false) ∧
    ((e.checksum_exists = true ∧ pyStrip e.cached_checksum = e.new_checksum) →
      (compute_conversion_flags e).text_processed = e.text_json_exists ∧
      (compute_conversion_flags e).table_processed = e.table_json_exists ∧
      (compute_conversion_flags e).chunked = e.chunk_json_exists) := by
  unfold compute_conversion_flags
  rcases e with ⟨ck, cached, fresh, cj, tj, tbj, chj⟩
  cases ck <;> by_cases hs : pyStrip cached = fresh <;> cases cj <;>
    simp_all

/-- Witness for C3 (amended) at a concrete environment with matching checksum
and all artifacts present: `convert` is false. -/
theorem C3_flags_amended_witness :
    (compute_conversion_flags ⟨true, "abc", "abc", true, true, true, true⟩).convert = false := by
  have h := (C3_flags_amended ⟨true, "abc", "abc", true, true, true, true⟩).1
  by_contra hc
  have := h.mp (by revert hc; decide)
  revert this; decide

/-- C2: evaluation at the failing input.  For a batch of two tables whose
classification POST raises, `classify_text_with_llm` appends a single
`keep=true` for the whole failed batch instead of one per table, so the
decision list has length 1; `process_table`'s `zip` then silently drops the
second table from the kept output, although its summarization succeeded. -/
theorem C2_fail_open_bug :
    classify_text_with_llm (fun _ => .requestError) ["<table>A</table>", "<table>B</table>"] 32
      = [true] ∧
    (process_table_kept (fun _ => .requestError)
        (fun _ => .completed (.ok (some [some "a summary"])))
        ["<table>A</table>", "<table>B</table>"] ["capA", "capB"]).map (fun x => x.1)
      = [0] := by
  decide

theorem splitStep_chunks_extends (tc : String → Nat) (max_tokens overlap : Nat)
    (st : SplitState) (s : String) :
    ∃ t, (splitStep tc max_tokens overlap st s).chunks = st.chunks ++ t := by
  unfold splitStep splitOverflowReset
  by_cases h : max_tokens < st.current_token_count + tc s
  · by_cases h2 : 0 < overlap ∧ st.current ≠ []
    · exact ⟨[st.current], by simp [h, h2]⟩
    · exact ⟨[st.current], by simp [h, h2]⟩
  · exact ⟨[], by simp [h]⟩

theorem splitFoldl_chunks_extends (tc : String → Nat) (max_tokens overlap : Nat) :
    ∀ (l : List String) (st : SplitState),
      ∃ t, (l.foldl (splitStep tc max_tokens overlap) st).chunks = st.chunks ++ t := by
  intro l
  induction l with
  | nil => exact fun st => ⟨[], by simp⟩
  | cons s rest ih =>
    intro st
    obtain ⟨t₁, h₁⟩ := splitStep_chunks_extends tc max_tokens overlap st s
    obtain ⟨t₂, h₂⟩ := ih (splitStep tc max_tokens overlap st s)
    exact ⟨t₁ ++ t₂, by simp [List.foldl_cons, h₂, h₁]⟩

/-- C10: when the first sentence of the split text alone exceeds the token
budget, the overflow check fires while the accumulating chunk is still empty
and `" ".join([]) = ""` is saved, so the first returned chunk is the empty
string. -/
theorem C10_empty_first_chunk (sentSplit : String → List String) (tc : String → Nat)
    (text : String) (max_tokens overlap : Nat) (s : String) (rest : List String)
    (hsplit : sentSplit text = s :: rest) (hbig : max_tokens < tc s) :
    (split_text_into_token_chunks sentSplit tc text max_tokens overlap).head? = some "" := by
  unfold split_text_into_token_chunks splitSentenceChunks
  rw [hsplit]
  have hstep : splitStep tc max_tokens overlap ⟨[], [], 0⟩ s =
      ⟨[[]], [s], tc s⟩ := by
    have h : max_tokens < (0 : Nat) + tc s := by omega
    simp [splitStep, splitOverflowReset, h, hbig]
  rw [List.foldl_cons, hstep]
  obtain ⟨t, ht⟩ := splitFoldl_chunks_extends tc max_tokens overlap rest ⟨[[]], [s], tc s⟩
  by_cases hne : (rest.foldl (splitStep tc max_tokens overlap) ⟨[[]], [s], tc s⟩).current ≠ []
  · simp [hne, ht, joinSp]
  · simp [hne, ht, joinSp]

/-- Witness for C10: a concrete text whose first sentence has 4 tokens against
a budget of 3 yields `""` as the first chunk. -/
theorem C10_empty_first_chunk_witness :
    (split_text_into_token_chunks (fun _ => ["aaaa", "b"]) String.length
      "aaaa b" 3 50).head? = some "" :=
  C10_empty_first_chunk (fun _ => ["aaaa", "b"]) String.length "aaaa b" 3 50
    "aaaa" ["b"] rfl (by decide)

/-- C5: in the overflow branch of `split_text_into_token_chunks`, with overlap
configured and a non-empty just-closed sub-chunk, the next sub-chunk is seeded
with exactly the last sentence of the closed sub-chunk and its token counter
re-initialized to that sentence's token count; with zero overlap or an empty
closed sub-chunk it starts empty with a zero counter; and the loop step under
overflow is exactly this reset followed by appending the incoming sentence. -/
theorem C5_overlap_seeding (tc : String → Nat) (max_tokens overlap : Nat)
    (st : SplitState) (sentence : String)
    (hover : max_tokens < st.current_token_count + tc sentence) :
    (0 < overlap → st.current ≠ [] →
      splitOverflowReset tc overlap st =
        ⟨st.chunks ++ [st.current], [st.current.getLast?.getD ""],
         tc (st.current.getLast?.getD "")⟩) ∧
    ((overlap = 0 ∨ st.current = []) →
      splitOverflowReset tc overlap st = ⟨st.chunks ++ [st.current], [], 0⟩) ∧
    splitStep tc max_tokens overlap st sentence =
      { splitOverflowReset tc overlap st with
          current := (splitOverflowReset tc overlap st).current ++ [sentence],
          current_token_count :=
            (splitOverflowReset tc overlap st).current_token_count + tc sentence } := by
  refine ⟨?_, ?_, ?_⟩
  · intro h1 h2
    simp [splitOverflowReset, h1, h2]
  · intro h
    rcases h with h | h
    · simp [splitOverflowReset, h]
    · simp [splitOverflowReset, h]
  · simp [splitStep, hover]

/-- Witness for C5 at a concrete state: budget 3, closed sub-chunk
`["aa", "bb"]` (4 tokens), incoming sentence `"cc"`; the next sub-chunk is
seeded with `"bb"` and counter 2 before `"cc"` is appended. -/
theorem C5_overlap_seeding_witness :
    splitOverflowReset String.length 50 ⟨[], ["aa", "bb"], 4⟩ =
      ⟨[["aa", "bb"]], ["bb"], 2⟩ ∧
    splitStep String.length 3 50 ⟨[], ["aa", "bb"], 4⟩ "cc" =
      ⟨[["aa", "bb"]], ["bb", "cc"], 4⟩ := by
  have h := C5_overlap_seeding String.length 3 50 ⟨[], ["aa", "bb"], 4⟩ "cc" (by decide)
  refine ⟨?_, ?_⟩
  · have h1 := h.1 (by decide) (by decide)
    simpa using h1
  · rw [h.2.2, h.1 (by decide) (by decide)]
    decide

theorem splitStep_inv (tc : String → Nat) (max_tokens overlap : Nat)
    (st : SplitState) (s : String) (hinv : SplitInv tc max_tokens overlap st) :
    SplitInv tc max_tokens overlap (splitStep tc max_tokens overlap st s) := by
  obtain ⟨hchunks, hcur, hcount⟩ := hinv
  unfold splitStep
  by_cases h : max_tokens < st.current_token_count + tc s
  · simp only [if_pos h]
    unfold splitOverflowReset
    by_cases h2 : 0 < overlap ∧ st.current ≠ []
    · simp only [if_pos h2]
      set last := st.current.getLast?.getD ""
      refine ⟨?_, ?_, ?_⟩
      · intro c hc
        simp only [List.mem_append, List.mem_singleton] at hc
        rcases hc with hc | hc
        · exact hchunks c hc
        · rw [hc]; exact hcur
      · by_cases h3 : tc last + tc s ≤ max_tokens
        · exact Or.inl (by simpa [sumTokens] using h3)
        · exact Or.inr (Or.inr ⟨h2.1, last, s, rfl, by omega⟩)
      · simp [sumTokens]
    · simp only [if_neg h2]
      refine ⟨?_, ?_, ?_⟩
      · intro c hc
        simp only [List.mem_append, List.mem_singleton] at hc
        rcases hc with hc | hc
        · exact hchunks c hc
        · rw [hc]; exact hcur
      · by_cases h3 : tc s ≤ max_tokens
        · exact Or.inl (by simpa [sumTokens] using h3)
        · exact Or.inr (Or.inl ⟨s, rfl, by omega⟩)
      · simp [sumTokens]
  · simp only [if_neg h]
    refine ⟨hchunks, ?_, ?_⟩
    · refine Or.inl ?_
      have hc2 : st.current_token_count = (List.map tc st.current).sum := hcount
      simp only [sumTokens, List.map_append, List.map_cons, List.map_nil,
        List.sum_append, List.sum_cons, List.sum_nil]
      omega
    · rw [sumTokens_append]; simp [sumTokens, hcount]

theorem splitFoldl_inv (tc : String → Nat) (max_tokens overlap : Nat) :
    ∀ (l : List String) (st : SplitState), SplitInv tc max_tokens overlap st →
      SplitInv tc max_tokens overlap (l.foldl (splitStep tc max_tokens overlap) st) := by
  intro l
  induction l with
  | nil => exact fun st h => h
  | cons s rest ih =>
    intro st h
    exact ih _ (splitStep_inv tc max_tokens overlap st s h)

/-- C1 counterexample: with the budget 3 and the default overlap 50 that
`flush_chunk` passes, a buffer whose content splits into three 2-token
sentences makes `flush_chunk` emit a chunk `"aa aa"` of 5 tokens — above the
budget — that consists of two sentences, not of a single over-budget one. -/
theorem C1_token_budget_counterexample :
    "aa aa" ∈ ((flush_chunk (fun _ => ["aa", "aa", "aa"]) String.length
        ⟨none, none, none, none, "aa aa aa", [], []⟩ [] 3).1.map (fun c => c.content)) ∧
    3 < String.length "aa aa" ∧
    "aa aa" ∉ ((fun (_ : String) => ["aa", "aa", "aa"]) "aa aa aa") := by
  decide

/-- C1 (amended): every chunk emitted by the sentence-packing loop (and hence
every chunk `flush_chunk` builds a `Chunk` from) has token count at most
`max_tokens`, except that it may be a single sentence that alone exceeds the
budget, or — when overlap is configured, as it always is via `flush_chunk`'s
default `overlap=50` — the overlap seed together with the single sentence
whose addition overflowed, jointly exceeding the budget. -/
theorem C1_token_budget_amended :
    (∀ (tc : String → Nat) (max_tokens overlap : Nat) (sentences : List String)
       (chunk : List String), chunk ∈ splitSentenceChunks tc sentences max_tokens overlap →
       chunkWithinBudget tc max_tokens overlap chunk) ∧
    (∀ (sentSplit : String → List String) (tc : String → Nat) (cur : CurrentChunk)
       (chunks : List Chunk) (max_tokens : Nat) (c : Chunk),
       c ∈ (flush_chunk sentSplit tc cur chunks max_tokens).1 →
       c ∈ chunks ∨ ∃ sc, sc ∈ splitSentenceChunks tc (sentSplit (pyStrip cur.content))
           max_tokens 50 ∧ c.content = joinSp sc ∧ chunkWithinBudget tc max_tokens 50 sc) := by
  have main : ∀ (tc : String → Nat) (max_tokens overlap : Nat) (sentences : List String)
      (chunk : List String), chunk ∈ splitSentenceChunks tc sentences max_tokens overlap →
      chunkWithinBudget tc max_tokens overlap chunk := by
    intro tc max_tokens overlap sentences chunk hmem
    have hinv0 : SplitInv tc max_tokens overlap ⟨[], [], 0⟩ := by
      refine ⟨by simp, Or.inl ?_, by simp [sumTokens]⟩
      simp [sumTokens]
    have hinv := splitFoldl_inv tc max_tokens overlap sentences ⟨[], [], 0⟩ hinv0
    unfold splitSentenceChunks at hmem
    set final := sentences.foldl (splitStep tc max_tokens overlap) ⟨[], [], 0⟩ with hfinal
    by_cases hne : final.current ≠ []
    · rw [if_pos hne] at hmem
      simp only [List.mem_append, List.mem_singleton] at hmem
      rcases hmem with hmem | hmem
      · exact hinv.1 chunk hmem
      · rw [hmem]; exact hinv.2.1
    · rw [if_neg hne] at hmem
      exact hinv.1 chunk hmem
  refine ⟨main, ?_⟩
  intro sentSplit tc cur chunks max_tokens c hc
  unfold flush_chunk at hc
  by_cases hempty : pyStrip cur.content = ""
  · rw [if_pos hempty] at hc
    exact Or.inl hc
  · rw [if_neg hempty] at hc
    simp only [List.mem_append] at hc
    rcases hc with hc | hc
    · exact Or.inl hc
    · refine Or.inr ?_
      obtain ⟨p, hp, hfp⟩ := List.mem_map.mp hc
      have hsnd : p.2 ∈ split_text_into_token_chunks sentSplit tc
          (pyStrip cur.content) max_tokens 50 := by
        have h1 := List.mem_map_of_mem Prod.snd hp
        rwa [List.enum_map_snd] at h1
      have hcc : c.content = p.2 := by rw [← hfp]
      unfold split_text_into_token_chunks at hsnd
      obtain ⟨sc, hsc, hjoin⟩ := List.mem_map.mp hsnd
      exact ⟨sc, hsc, by rw [hcc, ← hjoin], main tc max_tokens 50 _ sc hsc⟩

/-- Witness for C1 (amended): the concrete over-budget chunk `["aa", "aa"]`
from the counterexample run indeed has the licensed two-sentence shape. -/
theorem C1_token_budget_amended_witness :
    chunkWithinBudget String.length 3 50 ["aa", "aa"] :=
  C1_token_budget_amended.1 String.length 3 50 ["aa", "aa", "aa"] ["aa", "aa"] (by decide)

/-- C8: among the chunks a single `flush_chunk` call appends, `part_id` is
present with value `i + 1` at 0-based position `i` exactly when the flush
produced more than one sub-chunk; a flush producing exactly one chunk emits
it with no `part_id`. -/
theorem C8_part_id_iff_multipart (sentSplit : String → List String) (tc : String → Nat)
    (cur : CurrentChunk) (chunks : List Chunk) (max_tokens i : Nat)
    (h : i < (((flush_chunk sentSplit tc cur chunks max_tokens).1).drop chunks.length).length) :
    (((flush_chunk sentSplit tc cur chunks max_tokens).1).drop chunks.length)[i]?.map
        (fun c => c.part_id) =
      some (if 1 < (((flush_chunk sentSplit tc cur chunks
          max_tokens).1).drop chunks.length).length
        then some (i + 1) else none) := by
  by_cases hempty : pyStrip cur.content = ""
  · have he : ((flush_chunk sentSplit tc cur chunks max_tokens).1).drop chunks.length = [] := by
      simp only [flush_chunk, if_pos hempty]
      exact List.drop_length chunks
    rw [he] at h
    simp at h
  · have he : ((flush_chunk sentSplit tc cur chunks max_tokens).1).drop chunks.length =
        (split_text_into_token_chunks sentSplit tc (pyStrip cur.content)
          max_tokens 50).enum.map (fun p =>
          ({ chapter_title := cur.chapter_title,
             section_title := cur.section_title,
             subsection_title := cur.subsection_title,
             subsubsection_title := cur.subsubsection_title,
             content := p.2,
             page_range := sortedDedup cur.page_range,
             source_nodes := cur.source_nodes,
             part_id := if 1 < (split_text_into_token_chunks sentSplit tc (pyStrip cur.content)
                 max_tokens 50).length
               then some (p.1 + 1) else none } : Chunk)) := by
      simp only [flush_chunk, if_neg hempty]
      exact List.drop_left _ _
    rw [he] at h ⊢
    rw [List.getElem?_map, List.getElem?_enum]
    rw [List.length_map, List.enum_length] at h ⊢
    rw [List.getElem?_eq_getElem h]
    simp

/-- Witness for C8: a flush whose content packs into two sub-chunks attaches
`part_id = 2` to the second emitted chunk. -/
theorem C8_part_id_iff_multipart_witness :
    ((((flush_chunk (fun _ => ["aa", "aa"]) String.length
        ⟨none, none, none, none, "aa aa", [], []⟩ [] 2).1).drop
          ([] : List Chunk).length)[1]?.map
      (fun c => c.part_id)) = some (some 2) := by
  have h := C8_part_id_iff_multipart (fun _ => ["aa", "aa"]) String.length
    ⟨none, none, none, none, "aa aa", [], []⟩ [] 2 1 (by decide)
  rw [h]
  decide

theorem process_table_filter_keeps_aux :
    ∀ (d : List Bool) (n : Nat) (h c s1 s2 : List String), s1.length = s2.length →
      ((List.enumFrom n ((d.zip h).zip (c.zip s1))).filterMap
        (fun p => if p.2.1.1 then some (p.1, p.2.1.2, p.2.2.1, p.2.2.2) else none)).map
        (fun x => (x.1, x.2.1, x.2.2.1)) =
      ((List.enumFrom n ((d.zip h).zip (c.zip s2))).filterMap
        (fun p => if p.2.1.1 then some (p.1, p.2.1.2, p.2.2.1, p.2.2.2) else none)).map
        (fun x => (x.1, x.2.1, x.2.2.1)) := by
  intro d
  induction d with
  | nil => intro n h c s1 s2 _; simp
  | cons b bt ih =>
    intro n h c s1 s2 hlen
    cases h with
    | nil => simp
    | cons hh ht =>
      cases c with
      | nil => simp
      | cons ch ct =>
        cases s1 with
        | nil =>
          cases s2 with
          | nil => rfl
          | cons y ys => simp at hlen
        | cons x xs =>
          cases s2 with
          | nil => simp at hlen
          | cons y ys =>
            have hlen' : xs.length = ys.length := by simpa using hlen
            cases b with
            | false =>
              simp only [List.zip_cons_cons, List.enumFrom_cons, List.filterMap_cons]
              simpa using ih (n + 1) ht ct xs ys hlen'
            | true =>
              simp only [List.zip_cons_cons, List.enumFrom_cons, List.filterMap_cons]
              simp only [if_pos]
              simp only [List.map_cons]
              rw [ih (n + 1) ht ct xs ys hlen']

/-- C9: when the remote summarization of one table errors — request/parse
error inside `summarize_single_table` or a crashed worker future — that
table's summary is the fixed placeholder `"No summary."`; the summary list
keeps one entry per table and each entry depends only on its own worker's
outcome, so one table's failure never aborts the others; and which tables the
`process_table` zip filter keeps (index, html, caption) is independent of the
summary values. -/
theorem C9_summarization_fail_closed (env : Nat → WorkerOutcome)
    (htmls : List String) (i : Nat) :
    (summarize_table env htmls).length = htmls.length ∧
    (i < htmls.length → (env i = .crashed ∨ env i = .completed .error) →
      (summarize_table env htmls)[i]? = some "No summary.") ∧
    (i < htmls.length → (summarize_table env htmls)[i]? = some (workerSummary (env i))) ∧
    (∀ (decisions : List Bool) (captions s1 s2 : List String), s1.length = s2.length →
      (process_table_filter decisions htmls captions s1).map (fun x => (x.1, x.2.1, x.2.2.1)) =
      (process_table_filter decisions htmls captions s2).map (fun x => (x.1, x.2.1, x.2.2.1))) := by
  have hidx : ∀ j, j < htmls.length →
      (summarize_table env htmls)[j]? = some (workerSummary (env j)) := by
    intro j hj
    unfold summarize_table
    rw [List.getElem?_map, List.getElem?_range hj]
    rfl
  refine ⟨by simp [summarize_table], ?_, fun h => hidx i h, ?_⟩
  · intro hi herr
    rw [hidx i hi]
    rcases herr with h | h <;> rw [h] <;> rfl
  · intro decisions captions s1 s2 hlen
    unfold process_table_filter
    exact process_table_filter_keeps_aux decisions 0 htmls captions s1 s2 hlen

/-- Witness for C9: with both workers crashing on a two-table input, the
second table's summary is the placeholder and the list still has two
entries. -/
theorem C9_summarization_fail_closed_witness :
    (summarize_table (fun _ => .crashed) ["h1", "h2"]).length = 2 ∧
    (summarize_table (fun _ => .crashed) ["h1", "h2"])[1]? = some "No summary." := by
  have h := C9_summarization_fail_closed (fun _ => .crashed) ["h1", "h2"] 1
  exact ⟨by rw [h.1]; rfl, h.2.1 (by decide) (Or.inl rfl)⟩

/-- C4: the chunker's header state machine.  A `section_header` block resolved
to level 1 sets the chapter title and clears section, subsection and
subsubsection; level 2 sets section and clears subsection and subsubsection
while preserving chapter; level 3 sets subsection and clears subsubsection
while preserving chapter and section; level 4 or above updates only the
subsubsection; and the buffer's title fields are seeded from the updated
state.  Consequently (second conjunct, on a concrete document) a level-1
header with content followed by a level-3 header with content yields a second
chunk whose `section_title` is null while its `chapter_title` is still the
level-1 title. -/
theorem C4_header_levels :
    (∀ (sentSplit : String → List String) (tc : String → Nat) (max_tokens : Nat)
       (lvls : List ℚ) (st : ChunkerState) (idx : Nat) (b : Block)
       (level : Nat) (title : String),
       b.label = "section_header" →
       get_header_level (pyStrip b.text) b.font_size lvls = (level, title) →
       ((level = 1 →
          (chunk_step sentSplit tc max_tokens lvls st (idx, b)).current_chapter = some title ∧
          (chunk_step sentSplit tc max_tokens lvls st (idx, b)).current_section = none ∧
          (chunk_step sentSplit tc max_tokens lvls st (idx, b)).current_subsection = none ∧
          (chunk_step sentSplit tc max_tokens lvls st (idx, b)).current_subsubsection = none) ∧
        (level = 2 →
          (chunk_step sentSplit tc max_tokens lvls st (idx, b)).current_chapter
            = st.current_chapter ∧
          (chunk_step sentSplit tc max_tokens lvls st (idx, b)).current_section = some title ∧
          (chunk_step sentSplit tc max_tokens lvls st (idx, b)).current_subsection = none ∧
          (chunk_step sentSplit tc max_tokens lvls st (idx, b)).current_subsubsection = none) ∧
        (level = 3 →
          (chunk_step sentSplit tc max_tokens lvls st (idx, b)).current_chapter
            = st.current_chapter ∧
          (chunk_step sentSplit tc max_tokens lvls st (idx, b)).current_section
            = st.current_section ∧
          (chunk_step sentSplit tc max_tokens lvls st (idx, b)).current_subsection
            = some title ∧
          (chunk_step sentSplit tc max_tokens lvls st (idx, b)).current_subsubsection = none) ∧
        (4 ≤ level →
          (chunk_step sentSplit tc max_tokens lvls st (idx, b)).current_chapter
            = st.current_chapter ∧
          (chunk_step sentSplit tc max_tokens lvls st (idx, b)).current_section
            = st.current_section ∧
          (chunk_step sentSplit tc max_tokens lvls st (idx, b)).current_subsection
            = st.current_subsection ∧
          (chunk_step sentSplit tc max_tokens lvls st (idx, b)).current_subsubsection
            = some title) ∧
        ((chunk_step sentSplit tc max_tokens lvls st (idx, b)).current.chapter_title
            = (chunk_step sentSplit tc max_tokens lvls st (idx, b)).current_chapter ∧
         (chunk_step sentSplit tc max_tokens lvls st (idx, b)).current.section_title
            = (chunk_step sentSplit tc max_tokens lvls st (idx, b)).current_section ∧
         (chunk_step sentSplit tc max_tokens lvls st (idx, b)).current.subsection_title
            = (chunk_step sentSplit tc max_tokens lvls st (idx, b)).current_subsection ∧
         (chunk_step sentSplit tc max_tokens lvls st (idx, b)).current.subsubsection_title
            = (chunk_step sentSplit tc max_tokens lvls st (idx, b)).current_subsubsection))) ∧
    ((chunk_single_file (fun s => [s]) String.length
      [⟨"section_header", "# Intro", none, none⟩,
       ⟨"text", "alpha", none, none⟩,
       ⟨"section_header", "### Deep", none, none⟩,
       ⟨"text", "beta", none, none⟩] 512).map
      (fun c => (c.chapter_title, c.section_title, c.subsection_title)) =
      [(some "Intro", none, none), (some "Intro", none, some "Deep")]) := by
  constructor
  · intro sentSplit tc max_tokens lvls st idx b level title hlabel hget
    simp only [chunk_step, hlabel, if_pos, hget, reduceIte]
    refine ⟨?_, ?_, ?_, ?_, ?_⟩
    · intro h; simp [h]
    · intro h
      have h1 : ¬(level = 1) := by omega
      simp [h, h1]
    · intro h
      have h1 : ¬(level = 1) := by omega
      have h2 : ¬(level = 2) := by omega
      simp [h, h1, h2]
    · intro h
      have h1 : ¬(level = 1) := by omega
      have h2 : ¬(level = 2) := by omega
      have h3 : ¬(level = 3) := by omega
      simp [h1, h2, h3]
    · by_cases h1 : level = 1
      · simp [h1]
      · by_cases h2 : level = 2
        · simp [h1, h2]
        · by_cases h3 : level = 3
          · simp [h1, h2, h3]
          · simp [h1, h2, h3]
  · decide

/-- Witness for C4 at a concrete level-2 markdown header: the section title is
set while the chapter is preserved (here: still `none`) and subsection and
subsubsection are cleared. -/
theorem C4_header_levels_witness :
    (chunk_step (fun s => [s]) String.length 512 []
      ⟨[], ⟨none, none, none, none, "", [], []⟩, none, none, some "Old sub", some "Old subsub"⟩
      (0, ⟨"section_header", "## Methods", none, none⟩)).current_section = some "Methods" ∧
    (chunk_step (fun s => [s]) String.length 512 []
      ⟨[], ⟨none, none, none, none, "", [], []⟩, none, none, some "Old sub", some "Old subsub"⟩
      (0, ⟨"section_header", "## Methods", none, none⟩)).current_subsection = none := by
  have h := (C4_header_levels.1 (fun s => [s]) String.length 512 []
    ⟨[], ⟨none, none, none, none, "", [], []⟩, none, none, some "Old sub", some "Old subsub"⟩
    0 ⟨"section_header", "## Methods", none, none⟩ 2 "Methods" rfl (by decide)).2.1 rfl
  exact ⟨h.2.1, h.2.2.1⟩

theorem section_header_not_excluded : ("section_header" : String) ∉ excluded_labels := by
  decide

/-- C6 counterexample: in the no-ToC path, a `section_header` block for which
the fuzzy font-size lookup returns no matches is silently dropped — the
structured output is empty (but extraction succeeded), so the block does not
appear at all, let alone with a lowest-priority level. -/
theorem C6_header_omitted_counterexample :
    process_text_entries none (fun _ _ => []) [⟨"section_header", "Intro", [1]⟩]
      = some [] := by
  decide

/-- C6 (amended): in the no-ToC (font-size) path a `section_header` block
appears in the structured output iff the fuzzy lookup returns at least one
match: with no matches the block is omitted (extraction itself continues);
with at least one match the block appears, carrying whatever font size the
perfect-score averaging yields — in particular a null `font_size` when no
match scores a perfect 100 — and the downstream level resolution
`get_header_level` assigns a null/unknown font size the lowest-priority
level `len(sorted_font_sizes)`. -/
theorem C6_header_omitted_amended (findMatches : String → Nat → List FontMatch)
    (t : TextObj) (page : Nat)
    (hlabel : t.label = "section_header") (hprov : t.prov = [page]) :
    (findMatches t.text (page - 1) = [] →
      process_text_entries none findMatches [t] = some []) ∧
    (findMatches t.text (page - 1) ≠ [] →
      ∃ fs, process_text_entries none findMatches [t]
        = some [⟨"section_header", t.text, page, fs⟩]) ∧
    (findMatches t.text (page - 1) ≠ [] →
      (∀ m ∈ findMatches t.text (page - 1), m.match_score ≠ 100) →
      process_text_entries none findMatches [t]
        = some [⟨"section_header", t.text, page, none⟩]) ∧
    (∀ (lvls : List ℚ) (txt : String), pyStartsWithHash (pyStrip txt) = false →
      get_header_level txt none lvls = (lvls.length, pyStrip txt)) := by
  refine ⟨?_, ?_, ?_, ?_⟩
  · intro hnone
    simp only [process_text_entries, List.foldlM_cons, List.foldlM_nil, process_text_step,
      hlabel, hprov]
    simp [hnone]
  · intro hne
    simp only [process_text_entries, List.foldlM_cons, List.foldlM_nil, process_text_step,
      hlabel, hprov]
    simp only [if_neg section_header_not_excluded, if_pos rfl, List.foldl_cons,
      List.foldl_nil, if_pos hne]
    exact ⟨_, rfl⟩
  · intro hne hall
    have hfilter : (findMatches t.text (page - 1)).filter
        (fun m => m.match_score = 100) = [] := by
      rw [List.filter_eq_nil_iff]
      intro m hm
      simpa using hall m hm
    simp only [process_text_entries, List.foldlM_cons, List.foldlM_nil, process_text_step,
      hlabel, hprov]
    simp only [if_neg section_header_not_excluded, if_pos rfl, List.foldl_cons,
      List.foldl_nil, if_pos hne]
    rw [hfilter]
    simp
  · intro lvls txt h
    simp [get_header_level, h]

/-- Witness for C6 (amended): a single fuzzy match with score 90 makes the
block appear (second conjunct), with a null font size (third conjunct), and
an empty ranking list assigns level 0 (its length) to a null font size. -/
theorem C6_header_omitted_amended_witness :
    (∃ fs, process_text_entries none (fun _ _ => [⟨9, 90⟩])
        [⟨"section_header", "Intro", [1]⟩] = some [⟨"section_header", "Intro", 1, fs⟩]) ∧
    process_text_entries none (fun _ _ => [⟨9, 90⟩]) [⟨"section_header", "Intro", [1]⟩]
      = some [⟨"section_header", "Intro", 1, none⟩] ∧
    get_header_level "Intro" none [] = (0, "Intro") := by
  have h := C6_header_omitted_amended (fun _ _ => [⟨9, 90⟩])
    ⟨"section_header", "Intro", [1]⟩ 1 rfl rfl
  refine ⟨?_, ?_, ?_⟩
  · exact h.2.1 (by simp)
  · exact h.2.2.1 (by simp) (by decide)
  · exact h.2.2.2 [] "Intro" (by decide)
